import Mathlib

/-!
Shallow embedding of `src/train.py` (the grayskull training driver).

The script's `main` function builds a results path, optionally creates the
results directory (`save is True`), seeds RNGs when a seed is given,
constructs an agent (catching the incompatibility error), runs an episode
loop guarded by `episodes == -1 or episode < episodes`, an inner step loop
guarded by `step < max_steps and not done`, and finally resolves the save
decision (prompting when unspecified) inside a `finally` block.

The environment and agent are external collaborators; they are modelled as
records of functions that may raise a `Signal` (KeyboardInterrupt or
SolvedGame), the two exception classes the loop catches.  Rewards are
modelled as exact integers.  Filesystem writes are modelled as an effect
trace.  The outer loop may be unbounded (`episodes = -1`), so the Lean
functions take explicit fuel; an `outOfFuel` flag records the model
artifact of fuel exhaustion while the source guard is still true.
-/

namespace Grayskull

/-- The two exception classes caught by the driver's episode loop:
`KeyboardInterrupt` and `grayskull.errors.SolvedGame` (train.py lines
139-142). -/
inductive Signal where
  | interrupt
  | solved
deriving DecidableEq, Repr

/-- The tuple passed to `agent.react` (train.py lines 126-133), in the
source's argument order: observation, action, reward, done,
new_observation, and the truncation flag `step == max_steps`. -/
structure Transition (Obs Act : Type) where
  observation : Obs
  action : Act
  reward : Int
  done : Bool
  new_observation : Obs
  truncated : Bool
deriving DecidableEq, Repr

/-- External environment collaborator: `reset() -> observation` and
`step(action) -> (observation, reward, done, info)` (info discarded by the
driver).  Either call may raise a caught signal. -/
structure Env (S Obs Act : Type) where
  reset : S → Except Signal (Obs × S)
  step : S → Act → Except Signal (Obs × Int × Bool × S)

/-- External agent collaborator: `act(observation) -> action` and the
learning hook `react(...)`.  Either call may raise a caught signal. -/
structure Agent (A Obs Act : Type) where
  act : A → Obs → Except Signal (Act × A)
  react : A → Transition Obs Act → Except Signal A

/-- State of the inner step loop (train.py lines 108-136) when it exits:
the step counter, accumulated reward, current observation, collaborator
states, the transitions passed to `agent.react`, and a model-artifact flag
set when fuel ran out while the source guard was still true. -/
structure StepOut (S A Obs Act : Type) where
  step : Nat
  total_reward : Int
  observation : Obs
  envState : S
  agentState : A
  transitions : List (Transition Obs Act)
  outOfFuel : Bool

variable {S A Obs Act : Type}

/-- The inner step loop of train.py (lines 112-136): while
`step < max_steps and not done`, increment `step`, ask the agent for an
action, step the environment, accumulate the reward, and invoke
`agent.react` with the transition whose truncation flag is
`step == max_steps`.  `render` is an external display call with no effect
on this state, so it is not modelled.  Structural recursion is on `fuel`;
the source guard is checked unchanged at every iteration. -/
def stepLoopFuel (env : Env S Obs Act) (agent : Agent A Obs Act) (max_steps : Nat) :
    Nat → Nat → Bool → Obs → Int → S → A → List (Transition Obs Act) →
      Except Signal (StepOut S A Obs Act)
  | 0, step, done, observation, total_reward, s, a, acc =>
    if step < max_steps ∧ done = false then
      Except.ok ⟨step, total_reward, observation, s, a, acc, true⟩
    else
      Except.ok ⟨step, total_reward, observation, s, a, acc, false⟩
  | fuel + 1, step, done, observation, total_reward, s, a, acc =>
    if step < max_steps ∧ done = false then
      match agent.act a observation with
      | Except.error sig => Except.error sig
      | Except.ok (action, a1) =>
        match env.step s action with
        | Except.error sig => Except.error sig
        | Except.ok (new_observation, reward, done1, s1) =>
          match agent.react a1
              ⟨observation, action, reward, done1, new_observation,
                step + 1 == max_steps⟩ with
          | Except.error sig => Except.error sig
          | Except.ok a2 =>
            stepLoopFuel env agent max_steps fuel (step + 1) done1 new_observation
              (total_reward + reward) s1 a2
              (acc ++ [⟨observation, action, reward, done1, new_observation,
                step + 1 == max_steps⟩])
    else
      Except.ok ⟨step, total_reward, observation, s, a, acc, false⟩

/-- The inner step loop entered with step counter `step`: since the guard
requires `step < max_steps` and `step` increases by one per iteration,
`max_steps - step` fuel always suffices. -/
def stepLoop (env : Env S Obs Act) (agent : Agent A Obs Act)
    (max_steps step : Nat) (done : Bool) (observation : Obs)
    (total_reward : Int) (s : S) (a : A) :
    Except Signal (StepOut S A Obs Act) :=
  stepLoopFuel env agent max_steps (max_steps - step) step done observation
    total_reward s a []

/-- The outer loop guard of train.py line 100:
`episodes == -1 or episode < episodes`. -/
def loopGuard (episodes episode : Int) : Bool :=
  episodes == -1 || decide (episode < episodes)

/-- What the driver logs at the end of one completed episode (train.py
line 138), together with the episode's observable history: the episode
number, accumulated reward, final step count, the observation returned by
`env.reset`, and the transitions passed to `agent.react`. -/
structure EpisodeLog (Obs Act : Type) where
  episode : Int
  total_reward : Int
  steps : Nat
  resetObs : Obs
  transitions : List (Transition Obs Act)
deriving DecidableEq, Repr

/-- Result of the outer episode loop (train.py lines 98-142): the final
episode counter, the logs of completed episodes, the caught signal if one
was raised, and the fuel-exhaustion model artifact. -/
structure LoopOut (Obs Act : Type) where
  episode : Int
  logs : List (EpisodeLog Obs Act)
  signal : Option Signal
  outOfFuel : Bool
deriving DecidableEq, Repr

/-- The outer episode loop of train.py (lines 100-138): while the guard
holds, increment the episode counter, reset the environment, run the step
loop from `step = 0`, `done = False`, `total_reward = 0.0`, and log the
episode.  A raised signal stops the loop with the logs accumulated so
far. -/
def episodeLoop (env : Env S Obs Act) (agent : Agent A Obs Act)
    (max_steps : Nat) (episodes : Int) :
    Nat → Int → S → A → List (EpisodeLog Obs Act) → LoopOut Obs Act
  | fuel, episode, s, a, logs =>
    if loopGuard episodes episode then
      match fuel with
      | 0 => ⟨episode, logs, none, true⟩
      | fuel + 1 =>
        match env.reset s with
        | Except.error sig => ⟨episode + 1, logs, some sig, false⟩
        | Except.ok (observation, s1) =>
          match stepLoop env agent max_steps 0 false observation 0 s1 a with
          | Except.error sig => ⟨episode + 1, logs, some sig, false⟩
          | Except.ok out =>
            episodeLoop env agent max_steps episodes fuel (episode + 1)
              out.envState out.agentState
              (logs ++ [⟨episode + 1, out.total_reward, out.step, observation,
                out.transitions⟩])
    else
      ⟨episode, logs, none, false⟩

/-- The run configuration read by `main` from its parameters (train.py
lines 24-32): game name, agent name, episode budget, render flag, monitor
flag, optional seed, tri-state save flag. -/
structure Config where
  game : String
  agentName : String
  episodes : Int
  render : Bool
  monitor : Bool
  seed : Option Int
  save : Option Bool
deriving DecidableEq, Repr

/-- Filesystem writes performed by the driver: the results-directory
creation (train.py line 69) and the agent save (line 150). -/
inductive FsEffect where
  | mkdir (path : String)
  | saveAgent (path : String)
deriving DecidableEq, Repr

/-- How a run of `main` ends: a NameError from the seeding branch (lines
74-76 reference `random` and `np`, neither of which is imported), the
early return after catching the incompatibility error (line 91), or
completion of the try/finally with the optionally caught signal. -/
inductive Outcome where
  | nameError
  | incompatibleAbort
  | completed (signal : Option Signal)
deriving DecidableEq, Repr

/-- Result of agent construction (train.py lines 82-88): the agent's
methods and initial state, or the caught
`grayskull.errors.IncompatibleGameError`. -/
inductive Constructed (A Obs Act : Type) where
  | ok (methods : Agent A Obs Act) (a0 : A)
  | incompatible

/-- Observable result of one run of `main`: filesystem effect trace,
outcome, whether the agent constructor was invoked, the completed-episode
logs, the final episode counter, how many times the finalization
(`finally`) block ran, the final values of the configuration variables,
and the fuel-exhaustion model artifact. -/
structure RunResult (Obs Act : Type) where
  effects : List FsEffect
  outcome : Outcome
  constructCalled : Bool
  episodeLogs : List (EpisodeLog Obs Act)
  finalEpisode : Int
  finalizeCount : Nat
  finalConfig : Config
  outOfFuel : Bool
deriving DecidableEq, Repr

/-- `yn.lower()` applied to the prompt answer (train.py line 146):
character-wise ASCII lowercasing. -/
def strLower (s : String) : String :=
  String.mk (s.data.map Char.toLower)

/-- `os.path.join('results', agent, game, date)` (train.py line 66). -/
def resultsPath (cfg : Config) (date : String) : String :=
  "results/" ++ cfg.agentName ++ "/" ++ cfg.game ++ "/" ++ date

/-- The driver `main` (train.py lines 24-152).  In source order: build the
results path; `os.makedirs` when `save is True` (line 68); when a seed is
given, line 75 evaluates `random.seed(seed)` where `random` is never
imported, so a NameError propagates out of `main` uncaught (modelled as
the `nameError` outcome with no construction, no episodes and no
finalization); construct the agent, returning early on the incompatibility
error (line 91) before the try/finally; run the episode loop; in the
`finally` block, prompt when `save is None` (setting `save = True` exactly
when the lowercased answer equals "y", line 147) and append the agent-save
effect when `save` is truthy (line 150). -/
def mainRun (fuel : Nat) (cfg : Config) (date : String)
    (env : Env S Obs Act) (s0 : S) (max_steps : Nat)
    (construct : Constructed A Obs Act) (promptAnswer : String) :
    RunResult Obs Act :=
  let path := resultsPath cfg date
  let effects0 : List FsEffect :=
    if cfg.save = some true then [FsEffect.mkdir path] else []
  if cfg.seed.isSome then
    ⟨effects0, Outcome.nameError, false, [], 0, 0, cfg, false⟩
  else
    match construct with
    | Constructed.incompatible =>
      ⟨effects0, Outcome.incompatibleAbort, true, [], 0, 0, cfg, false⟩
    | Constructed.ok methods a0 =>
      let lo := episodeLoop env methods max_steps cfg.episodes fuel 0 s0 a0 []
      let save1 : Option Bool :=
        match cfg.save with
        | none => if strLower promptAnswer == "y" then some true else none
        | some b => some b
      let effects1 := effects0 ++
        (if save1 = some true then [FsEffect.saveAgent (path ++ "/final.pkl")]
         else [])
      ⟨effects1, Outcome.completed lo.signal, true, lo.logs, lo.episode, 1,
        { cfg with save := save1 }, lo.outOfFuel⟩

/-- An environment over step-counter state that returns reward 1 at every
step and reports `done` exactly when its counter reaches `k`. -/
def doneAtEnv (k : Nat) : Env Nat Nat Nat where
  reset := fun _ => Except.ok (0, 0)
  step := fun s _ => Except.ok (s + 1, 1, s + 1 == k, s + 1)

/-- An environment that never reports `done` and always returns reward 1. -/
def neverDoneEnv : Env Nat Nat Nat where
  reset := fun _ => Except.ok (0, 0)
  step := fun s _ => Except.ok (s + 1, 1, false, s + 1)

/-- An environment whose `step` raises `KeyboardInterrupt`. -/
def interruptEnv : Env Nat Nat Nat where
  reset := fun s => Except.ok (0, s)
  step := fun _ _ => Except.error Signal.interrupt

/-- A stateless agent that always chooses action 0 and learns nothing. -/
def constAgent : Agent Unit Nat Nat where
  act := fun a _ => Except.ok (0, a)
  react := fun a _ => Except.ok a

/-- The default run configuration of train.py's `main`, with `save`
pre-resolved to `False`. -/
def baseCfg : Config :=
  ⟨"CartPole-v0", "random", 3, false, false, none, some false⟩

/-- The environment never raises a signal. -/
def EnvTotal (env : Env S Obs Act) : Prop :=
  (∀ s, ∃ r, env.reset s = Except.ok r) ∧
  ∀ s act, ∃ r, env.step s act = Except.ok r

/-- The agent never raises a signal. -/
def AgentTotal (agent : Agent A Obs Act) : Prop :=
  (∀ a obs, ∃ r, agent.act a obs = Except.ok r) ∧
  ∀ a tr, ∃ r, agent.react a tr = Except.ok r

/-- Invariant of a completed episode's log: the step counter matches the
number of transitions, the step counter is bounded by the limit, the
accumulated reward is the sum of per-step rewards, and each transition's
truncation flag is `step == max_steps` for its one-based step index. -/
def LogOk (max_steps : Nat) (lg : EpisodeLog Obs Act) : Prop :=
  lg.steps = lg.transitions.length ∧
  lg.steps ≤ max_steps ∧
  lg.total_reward = (lg.transitions.map Transition.reward).sum ∧
  ∀ i (h : i < lg.transitions.length),
    (lg.transitions.get ⟨i, h⟩).truncated = (i + 1 == max_steps)

/-- Invariant of the inner step loop: relative to the entry step counter,
the loop appends transitions whose count advances the counter, sums their
rewards into the accumulator, never pushes the counter past the limit, and
stamps each transition's truncation flag with `step == max_steps` at its
one-based step index. -/
theorem stepLoopFuel_spec (env : Env S Obs Act) (agent : Agent A Obs Act)
    (max_steps : Nat) :
    ∀ (fuel step : Nat) (done : Bool) (observation : Obs) (total_reward : Int)
      (s : S) (a : A) (acc : List (Transition Obs Act)) (out : StepOut S A Obs Act),
      stepLoopFuel env agent max_steps fuel step done observation total_reward s a acc
        = Except.ok out →
      ∃ l : List (Transition Obs Act),
        out.transitions = acc ++ l ∧
        out.step = step + l.length ∧
        out.total_reward = total_reward + (l.map Transition.reward).sum ∧
        (step ≤ max_steps → out.step ≤ max_steps) ∧
        ∀ i (h : i < l.length),
          (l.get ⟨i, h⟩).truncated = (step + i + 1 == max_steps) := by
  intro fuel
  induction fuel with
  | zero =>
    intro step done observation total_reward s a acc out hrun
    simp only [stepLoopFuel] at hrun
    split at hrun <;>
    · cases hrun
      exact ⟨[], by simp, by simp, by simp, fun h => h, by simp⟩
  | succ fuel ih =>
    intro step done observation total_reward s a acc out hrun
    simp only [stepLoopFuel] at hrun
    split at hrun
    case isTrue hguard =>
      cases hact : agent.act a observation with
      | error sig => simp only [hact] at hrun; cases hrun
      | ok p =>
        obtain ⟨action, a1⟩ := p
        simp only [hact] at hrun
        cases hstep : env.step s action with
        | error sig => simp only [hstep] at hrun; cases hrun
        | ok q =>
          obtain ⟨new_observation, reward, done1, s1⟩ := q
          simp only [hstep] at hrun
          cases hreact : agent.react a1
              ⟨observation, action, reward, done1, new_observation,
                step + 1 == max_steps⟩ with
          | error sig => simp only [hreact] at hrun; cases hrun
          | ok a2 =>
            simp only [hreact] at hrun
            obtain ⟨l, h1, h2, h3, h4, h5⟩ := ih (step + 1) done1 new_observation
              (total_reward + reward) s1 a2
              (acc ++ [⟨observation, action, reward, done1, new_observation,
                step + 1 == max_steps⟩]) out hrun
            refine ⟨⟨observation, action, reward, done1, new_observation,
              step + 1 == max_steps⟩ :: l, ?_, ?_, ?_, ?_, ?_⟩
            · simpa using h1
            · simp only [List.length_cons]
              omega
            · simp only [List.map_cons, List.sum_cons]
              rw [h3]
              ring
            · intro _
              exact h4 hguard.1
            · intro i h
              match i with
              | 0 => simp
              | Nat.succ j =>
                have hj : j < l.length := by
                  simpa [Nat.succ_lt_succ_iff] using h
                have := h5 j hj
                simp only [List.get_cons_succ]
                rw [this]
                congr 1
                omega
    case isFalse hguard =>
      cases hrun
      exact ⟨[], by simp, by simp, by simp, fun h => h, by simp⟩

/-- With at least `max_steps - step` fuel the inner step loop never hits
the fuel bound: the source guard alone decides its exit. -/
theorem stepLoopFuel_noFuelOut (env : Env S Obs Act) (agent : Agent A Obs Act)
    (max_steps : Nat) :
    ∀ (fuel step : Nat) (done : Bool) (observation : Obs) (total_reward : Int)
      (s : S) (a : A) (acc : List (Transition Obs Act)) (out : StepOut S A Obs Act),
      max_steps - step ≤ fuel →
      stepLoopFuel env agent max_steps fuel step done observation total_reward s a acc
        = Except.ok out →
      out.outOfFuel = false := by
  intro fuel
  induction fuel with
  | zero =>
    intro step done observation total_reward s a acc out hfuel hrun
    simp only [stepLoopFuel] at hrun
    split at hrun
    case isTrue hguard => omega
    case isFalse hguard => cases hrun; rfl
  | succ fuel ih =>
    intro step done observation total_reward s a acc out hfuel hrun
    simp only [stepLoopFuel] at hrun
    split at hrun
    case isTrue hguard =>
      cases hact : agent.act a observation with
      | error sig => simp only [hact] at hrun; cases hrun
      | ok p =>
        obtain ⟨action, a1⟩ := p
        simp only [hact] at hrun
        cases hstep : env.step s action with
        | error sig => simp only [hstep] at hrun; cases hrun
        | ok q =>
          obtain ⟨new_observation, reward, done1, s1⟩ := q
          simp only [hstep] at hrun
          cases hreact : agent.react a1
              ⟨observation, action, reward, done1, new_observation,
                step + 1 == max_steps⟩ with
          | error sig => simp only [hreact] at hrun; cases hrun
          | ok a2 =>
            simp only [hreact] at hrun
            exact ih (step + 1) done1 new_observation (total_reward + reward)
              s1 a2 _ out (by omega) hrun
    case isFalse hguard => cases hrun; rfl

/-- When neither collaborator raises a signal, the inner step loop returns
normally. -/
theorem stepLoopFuel_total (env : Env S Obs Act) (agent : Agent A Obs Act)
    (max_steps : Nat) (henv : EnvTotal env) (hagent : AgentTotal agent) :
    ∀ (fuel step : Nat) (done : Bool) (observation : Obs) (total_reward : Int)
      (s : S) (a : A) (acc : List (Transition Obs Act)),
      ∃ out, stepLoopFuel env agent max_steps fuel step done observation
        total_reward s a acc = Except.ok out := by
  intro fuel
  induction fuel with
  | zero =>
    intro step done observation total_reward s a acc
    simp only [stepLoopFuel]
    split <;> exact ⟨_, rfl⟩
  | succ fuel ih =>
    intro step done observation total_reward s a acc
    simp only [stepLoopFuel]
    split
    case isTrue hguard =>
      obtain ⟨⟨action, a1⟩, hact⟩ := hagent.1 a observation
      obtain ⟨⟨new_observation, reward, done1, s1⟩, hstep⟩ := henv.2 s action
      obtain ⟨a2, hreact⟩ := hagent.2 a1
        ⟨observation, action, reward, done1, new_observation,
          step + 1 == max_steps⟩
      simp only [hact, hstep, hreact]
      exact ih (step + 1) done1 new_observation (total_reward + reward) s1 a2 _
    case isFalse hguard => exact ⟨_, rfl⟩

/-- The step loop entered at step 0 with a zeroed accumulator (as the
episode loop enters it) satisfies the per-episode log invariant. -/
theorem stepLoop_zero_spec (env : Env S Obs Act) (agent : Agent A Obs Act)
    (max_steps : Nat) (observation : Obs) (s : S) (a : A)
    (out : StepOut S A Obs Act)
    (hrun : stepLoop env agent max_steps 0 false observation 0 s a
      = Except.ok out) :
    out.step = out.transitions.length ∧
    out.step ≤ max_steps ∧
    out.total_reward = (out.transitions.map Transition.reward).sum ∧
    ∀ i (h : i < out.transitions.length),
      (out.transitions.get ⟨i, h⟩).truncated = (i + 1 == max_steps) := by
  obtain ⟨l, h1, h2, h3, h4, h5⟩ := stepLoopFuel_spec env agent max_steps
    (max_steps - 0) 0 false observation 0 s a [] out hrun
  simp only [List.nil_append] at h1
  subst h1
  refine ⟨by simpa using h2, h4 (Nat.zero_le _), by simpa using h3, ?_⟩
  intro i h
  simpa using h5 i h

/-- When neither collaborator raises a signal, the step loop (with its
always-sufficient fuel) returns normally and never hits the fuel bound. -/
theorem stepLoop_total (env : Env S Obs Act) (agent : Agent A Obs Act)
    (max_steps : Nat) (henv : EnvTotal env) (hagent : AgentTotal agent)
    (step : Nat) (done : Bool) (observation : Obs) (total_reward : Int)
    (s : S) (a : A) :
    ∃ out, stepLoop env agent max_steps step done observation total_reward s a
      = Except.ok out ∧ out.outOfFuel = false := by
  obtain ⟨out, hout⟩ := stepLoopFuel_total env agent max_steps henv hagent
    (max_steps - step) step done observation total_reward s a []
  exact ⟨out, hout, stepLoopFuel_noFuelOut env agent max_steps (max_steps - step)
    step done observation total_reward s a [] out (Nat.le_refl _) hout⟩

/-- For a non-negative budget and signal-free collaborators, the episode
loop (with enough fuel) drives the episode counter exactly to the budget,
appends exactly one log per remaining episode, raises no signal and never
hits the fuel bound. -/
theorem episodeLoop_exact (env : Env S Obs Act) (agent : Agent A Obs Act)
    (max_steps : Nat) (episodes : Int) (h0 : 0 ≤ episodes)
    (henv : EnvTotal env) (hagent : AgentTotal agent) :
    ∀ (fuel : Nat) (episode : Int) (s : S) (a : A)
      (logs : List (EpisodeLog Obs Act)),
      episode ≤ episodes → (episodes - episode).toNat ≤ fuel →
      (episodeLoop env agent max_steps episodes fuel episode s a logs).episode
          = episodes ∧
      (episodeLoop env agent max_steps episodes fuel episode s a logs).logs.length
          = logs.length + (episodes - episode).toNat ∧
      (episodeLoop env agent max_steps episodes fuel episode s a logs).signal
          = none ∧
      (episodeLoop env agent max_steps episodes fuel episode s a logs).outOfFuel
          = false := by
  intro fuel
  induction fuel with
  | zero =>
    intro episode s a logs hle hfuel
    have heq : episode = episodes := by omega
    have hguard : loopGuard episodes episode = false := by
      simp only [loopGuard, Bool.or_eq_false_iff, beq_eq_false_iff_ne,
        decide_eq_false_iff_not]
      constructor <;> omega
    rw [episodeLoop]
    simp only [hguard, Bool.false_eq_true, if_false]
    refine ⟨heq, ?_, trivial, trivial⟩
    omega
  | succ fuel ih =>
    intro episode s a logs hle hfuel
    by_cases heq : episode = episodes
    · have hguard : loopGuard episodes episode = false := by
        simp only [loopGuard, Bool.or_eq_false_iff, beq_eq_false_iff_ne,
          decide_eq_false_iff_not]
        constructor <;> omega
      rw [episodeLoop]
      simp only [hguard, Bool.false_eq_true, if_false]
      refine ⟨heq, ?_, trivial, trivial⟩
      omega
    · have hlt : episode < episodes := lt_of_le_of_ne hle heq
      have hguard : loopGuard episodes episode = true := by
        simp only [loopGuard, Bool.or_eq_true, beq_iff_eq, decide_eq_true_eq]
        omega
      rw [episodeLoop]
      simp only [hguard, if_true]
      obtain ⟨⟨observation, s1⟩, hreset⟩ := henv.1 s
      simp only [hreset]
      obtain ⟨out, hstep, -⟩ := stepLoop_total env agent max_steps henv hagent
        0 false observation 0 s1 a
      simp only [hstep]
      obtain ⟨k1, k2, k3, k4⟩ := ih (episode + 1) out.envState out.agentState
        (logs ++ [⟨episode + 1, out.total_reward, out.step, observation,
          out.transitions⟩]) (by omega) (by omega)
      refine ⟨k1, ?_, k3, k4⟩
      rw [k2]
      simp only [List.length_append, List.length_singleton]
      omega

/-- Every log produced by the episode loop satisfies the per-episode
invariant `LogOk`, provided the initial accumulator does. -/
theorem episodeLoop_logOk (env : Env S Obs Act) (agent : Agent A Obs Act)
    (max_steps : Nat) (episodes : Int) :
    ∀ (fuel : Nat) (episode : Int) (s : S) (a : A)
      (logs : List (EpisodeLog Obs Act)),
      (∀ lg ∈ logs, LogOk max_steps lg) →
      ∀ lg ∈ (episodeLoop env agent max_steps episodes fuel episode s a logs).logs,
        LogOk max_steps lg := by
  intro fuel
  induction fuel with
  | zero =>
    intro episode s a logs hlogs lg hlg
    rw [episodeLoop] at hlg
    split at hlg <;> exact hlogs lg (by simpa using hlg)
  | succ fuel ih =>
    intro episode s a logs hlogs lg hlg
    rw [episodeLoop] at hlg
    split at hlg
    case isTrue =>
      cases hreset : env.reset s with
      | error sig =>
        simp only [hreset] at hlg
        exact hlogs lg (by simpa using hlg)
      | ok p =>
        obtain ⟨observation, s1⟩ := p
        simp only [hreset] at hlg
        cases hstep : stepLoop env agent max_steps 0 false observation 0 s1 a with
        | error sig =>
          simp only [hstep] at hlg
          exact hlogs lg (by simpa using hlg)
        | ok out =>
          simp only [hstep] at hlg
          refine ih (episode + 1) out.envState out.agentState _ ?_ lg hlg
          intro lg2 hlg2
          rcases List.mem_append.1 hlg2 with h | h
          · exact hlogs lg2 h
          · have hx : lg2 = ⟨episode + 1, out.total_reward, out.step,
                observation, out.transitions⟩ := by simpa using h
            subst hx
            obtain ⟨e1, e2, e3, e4⟩ := stepLoop_zero_spec env agent max_steps
              observation s1 a out hstep
            exact ⟨e1, e2, e3, e4⟩
    case isFalse =>
      exact hlogs lg (by simpa using hlg)

/-- Every completed-episode log of a whole run satisfies the per-episode
invariant `LogOk`. -/
theorem mainRun_logOk (fuel : Nat) (cfg : Config) (date : String)
    (env : Env S Obs Act) (s0 : S) (max_steps : Nat)
    (construct : Constructed A Obs Act) (promptAnswer : String) :
    ∀ lg ∈ (mainRun fuel cfg date env s0 max_steps construct
        promptAnswer).episodeLogs,
      LogOk max_steps lg := by
  intro lg hlg
  by_cases hseed : cfg.seed.isSome = true
  · simp only [mainRun] at hlg
    rw [if_pos hseed] at hlg
    simp at hlg
  · simp only [mainRun] at hlg
    rw [if_neg hseed] at hlg
    cases construct with
    | incompatible => simp at hlg
    | ok methods a0 =>
      refine episodeLoop_logOk env methods max_steps cfg.episodes fuel 0 s0 a0 []
        (by simp) lg ?_
      simpa using hlg

/-- With the unbounded sentinel `-1` and signal-free collaborators, the
episode loop consumes all its fuel: it never exits on the budget
condition. -/
theorem episodeLoop_unbounded (env : Env S Obs Act) (agent : Agent A Obs Act)
    (max_steps : Nat) (henv : EnvTotal env) (hagent : AgentTotal agent) :
    ∀ (fuel : Nat) (episode : Int) (s : S) (a : A)
      (logs : List (EpisodeLog Obs Act)),
      (episodeLoop env agent max_steps (-1) fuel episode s a logs).outOfFuel
        = true := by
  intro fuel
  induction fuel with
  | zero =>
    intro episode s a logs
    rw [episodeLoop]
    simp [loopGuard]
  | succ fuel ih =>
    intro episode s a logs
    have hguard : loopGuard (-1) episode = true := by simp [loopGuard]
    rw [episodeLoop]
    simp only [hguard, if_true]
    obtain ⟨⟨observation, s1⟩, hreset⟩ := henv.1 s
    simp only [hreset]
    obtain ⟨out, hstep, -⟩ := stepLoop_total env agent max_steps henv hagent
      0 false observation 0 s1 a
    simp only [hstep]
    exact ih (episode + 1) out.envState out.agentState _

/-- When the loop guard is false at entry, the episode loop returns at
once with the state it was given. -/
theorem episodeLoop_guardFalse (env : Env S Obs Act) (agent : Agent A Obs Act)
    (max_steps : Nat) (episodes : Int) (fuel : Nat) (episode : Int)
    (s : S) (a : A) (logs : List (EpisodeLog Obs Act))
    (hguard : loopGuard episodes episode = false) :
    episodeLoop env agent max_steps episodes fuel episode s a logs
      = ⟨episode, logs, none, false⟩ := by
  cases fuel <;>
  · rw [episodeLoop]
    simp [hguard]

/-- C1 (amended): for every step limit L, every episode (every log a run
hands to the debug logger) executes at most L steps, and the transition
passed to the learning hook at one-based step index i carries truncation
flag `i == L` — the flag is computed solely from reaching the exact step
limit (train.py line 132), independently of the environment's `done`
report. -/
theorem truncation_flag_eq_step_limit (fuel : Nat) (cfg : Config)
    (date : String) (env : Env S Obs Act) (s0 : S) (max_steps : Nat)
    (construct : Constructed A Obs Act) (promptAnswer : String)
    (lg : EpisodeLog Obs Act)
    (hlg : lg ∈ (mainRun fuel cfg date env s0 max_steps construct
      promptAnswer).episodeLogs) :
    lg.steps ≤ max_steps ∧
    lg.steps = lg.transitions.length ∧
    lg.transitions.map Transition.truncated
      = (List.range lg.transitions.length).map (fun i => i + 1 == max_steps) := by
  obtain ⟨e1, e2, e3, e4⟩ := mainRun_logOk fuel cfg date env s0 max_steps
    construct promptAnswer lg hlg
  refine ⟨e2, e1, ?_⟩
  apply List.ext_getElem
  · simp
  · intro i h1 h2
    simp only [List.getElem_map, List.getElem_range]
    have := e4 i (by simpa using h1)
    simpa [List.get_eq_getElem] using this

/-- C1 witness: a one-episode run against an environment that terminates
at step 1 with step limit 2; the sole transition's flag is `1 == 2`. -/
theorem truncation_flag_eq_step_limit_witness :
    (⟨1, 1, 1, 0, [⟨0, 0, 1, true, 1, false⟩]⟩ : EpisodeLog Nat Nat).steps ≤ 2 ∧
    (⟨1, 1, 1, 0, [⟨0, 0, 1, true, 1, false⟩]⟩ : EpisodeLog Nat Nat).steps
      = (⟨1, 1, 1, 0, [⟨0, 0, 1, true, 1, false⟩]⟩ :
          EpisodeLog Nat Nat).transitions.length ∧
    (⟨1, 1, 1, 0, [⟨0, 0, 1, true, 1, false⟩]⟩ :
        EpisodeLog Nat Nat).transitions.map Transition.truncated
      = (List.range (⟨1, 1, 1, 0, [⟨0, 0, 1, true, 1, false⟩]⟩ :
          EpisodeLog Nat Nat).transitions.length).map (fun i => i + 1 == 2) :=
  truncation_flag_eq_step_limit 1 { baseCfg with episodes := 1 } "d"
    (doneAtEnv 1) 0 2 (Constructed.ok constAgent ()) "n"
    ⟨1, 1, 1, 0, [⟨0, 0, 1, true, 1, false⟩]⟩ (by decide)

/-- C1 counterexample: with step limit 3 and an environment that reports
`done` exactly at step 3, the run passes the learning hook a transition
whose `done` and truncation flags are both true — refuting the claim that
a transition where the environment reports done always carries a false
truncation flag. -/
theorem truncation_flag_set_with_done_at_limit :
    ∃ lg ∈ (mainRun 1 { baseCfg with episodes := 1 } "d" (doneAtEnv 3) 0 3
      (Constructed.ok constAgent ()) "n").episodeLogs,
      ∃ tr ∈ lg.transitions, tr.done = true ∧ tr.truncated = true := by
  decide

/-- C5: every accumulated reward logged at an episode's end equals the
exact sum of the per-step rewards the environment returned during that
episode (the accumulator starts from 0.0 at each episode start, train.py
line 108). -/
theorem total_reward_eq_sum (fuel : Nat) (cfg : Config) (date : String)
    (env : Env S Obs Act) (s0 : S) (max_steps : Nat)
    (construct : Constructed A Obs Act) (promptAnswer : String)
    (lg : EpisodeLog Obs Act)
    (hlg : lg ∈ (mainRun fuel cfg date env s0 max_steps construct
      promptAnswer).episodeLogs) :
    lg.total_reward = (lg.transitions.map Transition.reward).sum :=
  (mainRun_logOk fuel cfg date env s0 max_steps construct promptAnswer
    lg hlg).2.2.1

/-- C5 witness: the one-episode run against `doneAtEnv 1` logs total
reward 1, the sum of its single step's reward. -/
theorem total_reward_eq_sum_witness :
    (⟨1, 1, 1, 0, [⟨0, 0, 1, true, 1, false⟩]⟩ :
        EpisodeLog Nat Nat).total_reward
      = ((⟨1, 1, 1, 0, [⟨0, 0, 1, true, 1, false⟩]⟩ :
          EpisodeLog Nat Nat).transitions.map Transition.reward).sum :=
  total_reward_eq_sum 1 { baseCfg with episodes := 1 } "d" (doneAtEnv 1) 0 2
    (Constructed.ok constAgent ()) "n"
    ⟨1, 1, 1, 0, [⟨0, 0, 1, true, 1, false⟩]⟩ (by decide)

/-- C6: with episode budget 3, step limit 10, and an environment that
naturally terminates every episode at step 5, the driver runs exactly 3
episodes of exactly 5 steps each, no signal is raised, and every
transition passed to the learning hook has a false truncation flag. -/
theorem example_three_episodes_five_steps :
    (mainRun 3 baseCfg "d" (doneAtEnv 5) 0 10 (Constructed.ok constAgent ())
      "n").episodeLogs.length = 3 ∧
    (mainRun 3 baseCfg "d" (doneAtEnv 5) 0 10 (Constructed.ok constAgent ())
      "n").episodeLogs.map EpisodeLog.steps = [5, 5, 5] ∧
    (mainRun 3 baseCfg "d" (doneAtEnv 5) 0 10 (Constructed.ok constAgent ())
      "n").episodeLogs.map (fun lg => lg.transitions.map Transition.truncated)
      = [List.replicate 5 false, List.replicate 5 false,
          List.replicate 5 false] ∧
    (mainRun 3 baseCfg "d" (doneAtEnv 5) 0 10 (Constructed.ok constAgent ())
      "n").outcome = Outcome.completed none := by
  decide

/-- C2: for every finite episode budget N ≥ 0 and signal-free
collaborators, the outer loop (with enough fuel) runs exactly N episodes
and exits with no signal and no fuel exhaustion; with the unbounded
sentinel -1 the same loop never exits on the budget condition — it only
ever stops for lack of fuel in this model. -/
theorem episode_budget_exact (env : Env S Obs Act) (agent : Agent A Obs Act)
    (max_steps : Nat) (henv : EnvTotal env) (hagent : AgentTotal agent)
    (N : Int) (hN : 0 ≤ N) (fuel : Nat) (hfuel : N.toNat ≤ fuel)
    (s0 : S) (a0 : A) :
    (episodeLoop env agent max_steps N fuel 0 s0 a0 []).episode = N ∧
    (episodeLoop env agent max_steps N fuel 0 s0 a0 []).logs.length = N.toNat ∧
    (episodeLoop env agent max_steps N fuel 0 s0 a0 []).signal = none ∧
    (episodeLoop env agent max_steps N fuel 0 s0 a0 []).outOfFuel = false ∧
    (episodeLoop env agent max_steps (-1) fuel 0 s0 a0 []).outOfFuel = true := by
  obtain ⟨k1, k2, k3, k4⟩ := episodeLoop_exact env agent max_steps N hN henv
    hagent fuel 0 s0 a0 [] hN (by omega)
  refine ⟨k1, ?_, k3, k4,
    episodeLoop_unbounded env agent max_steps henv hagent fuel 0 s0 a0 []⟩
  rw [k2]
  simp

/-- C2 witness: budget 2, limit 10, an environment terminating at step 5:
exactly 2 episodes; the sentinel -1 run exhausts its fuel instead. -/
theorem episode_budget_exact_witness :
    (episodeLoop (doneAtEnv 5) constAgent 10 2 2 0 0 () []).episode = 2 ∧
    (episodeLoop (doneAtEnv 5) constAgent 10 2 2 0 0 () []).logs.length
      = Int.toNat 2 ∧
    (episodeLoop (doneAtEnv 5) constAgent 10 2 2 0 0 () []).signal = none ∧
    (episodeLoop (doneAtEnv 5) constAgent 10 2 2 0 0 () []).outOfFuel = false ∧
    (episodeLoop (doneAtEnv 5) constAgent 10 (-1) 2 0 0 () []).outOfFuel
      = true :=
  episode_budget_exact (doneAtEnv 5) constAgent 10
    ⟨fun _ => ⟨_, rfl⟩, fun _ _ => ⟨_, rfl⟩⟩
    ⟨fun _ _ => ⟨_, rfl⟩, fun _ _ => ⟨_, rfl⟩⟩
    2 (by decide) 2 (by decide) 0 ()

/-- C3 (amended): when agent construction raises the incompatibility
error (the seeding branch not being taken), the run aborts before the
episode loop: zero episodes execute, finalization — and with it any agent
save — never runs, and the only filesystem write is the results-directory
creation, which precedes agent construction and occurs exactly when save
was True at startup. -/
theorem incompatible_abort_effects (fuel : Nat) (cfg : Config) (date : String)
    (env : Env S Obs Act) (s0 : S) (max_steps : Nat) (promptAnswer : String)
    (hseed : cfg.seed = none) :
    (mainRun fuel cfg date env s0 max_steps
      (Constructed.incompatible : Constructed A Obs Act) promptAnswer).outcome
      = Outcome.incompatibleAbort ∧
    (mainRun fuel cfg date env s0 max_steps
      (Constructed.incompatible : Constructed A Obs Act)
      promptAnswer).episodeLogs = [] ∧
    (mainRun fuel cfg date env s0 max_steps
      (Constructed.incompatible : Constructed A Obs Act)
      promptAnswer).finalEpisode = 0 ∧
    (mainRun fuel cfg date env s0 max_steps
      (Constructed.incompatible : Constructed A Obs Act)
      promptAnswer).finalizeCount = 0 ∧
    (mainRun fuel cfg date env s0 max_steps
      (Constructed.incompatible : Constructed A Obs Act) promptAnswer).effects
      = (if cfg.save = some true then [FsEffect.mkdir (resultsPath cfg date)]
         else []) := by
  have hs : cfg.seed.isSome = false := by rw [hseed]; rfl
  simp only [mainRun]
  rw [if_neg (by simp [hs])]
  exact ⟨rfl, rfl, rfl, rfl, rfl⟩

/-- C3 witness: the theorem instantiated at a save-True run with
incompatible construction. -/
theorem incompatible_abort_effects_witness :
    (mainRun 1 { baseCfg with save := some true } "d" neverDoneEnv 0 2
      (Constructed.incompatible : Constructed Unit Nat Nat) "n").outcome
      = Outcome.incompatibleAbort ∧
    (mainRun 1 { baseCfg with save := some true } "d" neverDoneEnv 0 2
      (Constructed.incompatible : Constructed Unit Nat Nat) "n").episodeLogs
      = [] ∧
    (mainRun 1 { baseCfg with save := some true } "d" neverDoneEnv 0 2
      (Constructed.incompatible : Constructed Unit Nat Nat) "n").finalEpisode
      = 0 ∧
    (mainRun 1 { baseCfg with save := some true } "d" neverDoneEnv 0 2
      (Constructed.incompatible : Constructed Unit Nat Nat) "n").finalizeCount
      = 0 ∧
    (mainRun 1 { baseCfg with save := some true } "d" neverDoneEnv 0 2
      (Constructed.incompatible : Constructed Unit Nat Nat) "n").effects
      = (if ({ baseCfg with save := some true } : Config).save = some true
         then [FsEffect.mkdir
           (resultsPath { baseCfg with save := some true } "d")]
         else []) :=
  incompatible_abort_effects 1 { baseCfg with save := some true } "d"
    neverDoneEnv 0 2 "n" rfl

/-- C3 counterexample: a run with save pre-set to True whose agent
construction raises the incompatibility error still creates the results
directory (train.py line 69 runs before the construction at line 83),
refuting the claim that no file is written to the filesystem. -/
theorem incompatible_abort_mkdir_effect :
    (mainRun 1 { baseCfg with save := some true } "o" neverDoneEnv 0 2
      (Constructed.incompatible : Constructed Unit Nat Nat) "n").outcome
      = Outcome.incompatibleAbort ∧
    (mainRun 1 { baseCfg with save := some true } "o" neverDoneEnv 0 2
      (Constructed.incompatible : Constructed Unit Nat Nat) "n").effects
      = [FsEffect.mkdir "results/random/CartPole-v0/o"] ∧
    (mainRun 1 { baseCfg with save := some true } "o" neverDoneEnv 0 2
      (Constructed.incompatible : Constructed Unit Nat Nat) "n").effects
      ≠ [] := by
  decide

/-- C4: a run whose episode loop was stopped by a KeyboardInterrupt (the
caught signal is `interrupt`) does not propagate the exception — its
outcome is a completed try/finally — and reaches the finalization block
exactly once. -/
theorem interrupt_finalizes_once (fuel : Nat) (cfg : Config) (date : String)
    (env : Env S Obs Act) (s0 : S) (max_steps : Nat)
    (construct : Constructed A Obs Act) (promptAnswer : String)
    (h : (mainRun fuel cfg date env s0 max_steps construct
      promptAnswer).outcome = Outcome.completed (some Signal.interrupt)) :
    (mainRun fuel cfg date env s0 max_steps construct
      promptAnswer).finalizeCount = 1 := by
  by_cases hs : cfg.seed.isSome = true
  · simp only [mainRun, hs, if_true] at h
    exact Outcome.noConfusion h
  · cases construct with
    | incompatible =>
      simp only [mainRun] at h
      rw [if_neg hs] at h
      exact Outcome.noConfusion h
    | ok methods a0 =>
      simp only [mainRun]
      rw [if_neg hs]

/-- C4 witness: a run interrupted at its first environment step reaches
finalization exactly once. -/
theorem interrupt_finalizes_once_witness :
    (mainRun 1 { baseCfg with episodes := 1 } "d" interruptEnv 0 5
      (Constructed.ok constAgent ()) "n").finalizeCount = 1 :=
  interrupt_finalizes_once 1 { baseCfg with episodes := 1 } "d" interruptEnv 0 5
    (Constructed.ok constAgent ()) "n" (by decide)

/-- C7 (amended): the environment name, agent name, episode budget,
render flag, monitor flag and seed are never reassigned during a run, and
a pre-specified save flag is never reassigned either; only a save flag
left unspecified (None) is reassigned during finalization from the prompt
answer (train.py line 147). -/
theorem config_immutable_except_save (fuel : Nat) (cfg : Config)
    (date : String) (env : Env S Obs Act) (s0 : S) (max_steps : Nat)
    (construct : Constructed A Obs Act) (promptAnswer : String) :
    (mainRun fuel cfg date env s0 max_steps construct
      promptAnswer).finalConfig.game = cfg.game ∧
    (mainRun fuel cfg date env s0 max_steps construct
      promptAnswer).finalConfig.agentName = cfg.agentName ∧
    (mainRun fuel cfg date env s0 max_steps construct
      promptAnswer).finalConfig.episodes = cfg.episodes ∧
    (mainRun fuel cfg date env s0 max_steps construct
      promptAnswer).finalConfig.render = cfg.render ∧
    (mainRun fuel cfg date env s0 max_steps construct
      promptAnswer).finalConfig.monitor = cfg.monitor ∧
    (mainRun fuel cfg date env s0 max_steps construct
      promptAnswer).finalConfig.seed = cfg.seed ∧
    (cfg.save ≠ none →
      (mainRun fuel cfg date env s0 max_steps construct
        promptAnswer).finalConfig.save = cfg.save) := by
  by_cases hs : cfg.seed.isSome = true
  · simp only [mainRun, hs, if_true]
    simp
  · cases construct with
    | incompatible =>
      simp only [mainRun]
      rw [if_neg hs]
      exact ⟨rfl, rfl, rfl, rfl, rfl, rfl, fun _ => rfl⟩
    | ok methods a0 =>
      simp only [mainRun]
      rw [if_neg hs]
      refine ⟨rfl, rfl, rfl, rfl, rfl, rfl, ?_⟩
      intro hsave
      cases hcs : cfg.save with
      | none => exact absurd hcs hsave
      | some b => simp [hcs]

/-- C7 witness: the theorem instantiated at a run whose save flag is
pre-specified (False). -/
theorem config_immutable_except_save_witness :
    (mainRun 3 baseCfg "d" (doneAtEnv 5) 0 10 (Constructed.ok constAgent ())
      "n").finalConfig.game = baseCfg.game ∧
    (mainRun 3 baseCfg "d" (doneAtEnv 5) 0 10 (Constructed.ok constAgent ())
      "n").finalConfig.agentName = baseCfg.agentName ∧
    (mainRun 3 baseCfg "d" (doneAtEnv 5) 0 10 (Constructed.ok constAgent ())
      "n").finalConfig.episodes = baseCfg.episodes ∧
    (mainRun 3 baseCfg "d" (doneAtEnv 5) 0 10 (Constructed.ok constAgent ())
      "n").finalConfig.render = baseCfg.render ∧
    (mainRun 3 baseCfg "d" (doneAtEnv 5) 0 10 (Constructed.ok constAgent ())
      "n").finalConfig.monitor = baseCfg.monitor ∧
    (mainRun 3 baseCfg "d" (doneAtEnv 5) 0 10 (Constructed.ok constAgent ())
      "n").finalConfig.seed = baseCfg.seed ∧
    (baseCfg.save ≠ none →
      (mainRun 3 baseCfg "d" (doneAtEnv 5) 0 10 (Constructed.ok constAgent ())
        "n").finalConfig.save = baseCfg.save) :=
  config_immutable_except_save 3 baseCfg "d" (doneAtEnv 5) 0 10
    (Constructed.ok constAgent ()) "n"

/-- C7 counterexample: a run entered with save unspecified (None) whose
operator answers yes ends with the save configuration variable reassigned
to True — refuting the claim that no run-configuration value is ever
modified for the duration of the run. -/
theorem save_flag_reassigned_at_prompt :
    ({ baseCfg with episodes := 0, save := none } : Config).save = none ∧
    (mainRun 0 { baseCfg with episodes := 0, save := none } "d" neverDoneEnv 0 2
      (Constructed.ok constAgent ()) "y").finalConfig.save = some true := by
  decide

/-- C8: a run invoked with a non-None seed reaches line 75, whose names
`random` and `np` are never imported by the script, so it ends with a
name-resolution error: the agent constructor is never invoked, no episode
executes, and finalization is never reached. -/
theorem seed_branch_name_error (fuel : Nat) (cfg : Config) (date : String)
    (env : Env S Obs Act) (s0 : S) (max_steps : Nat)
    (construct : Constructed A Obs Act) (promptAnswer : String)
    (n : Int) (hseed : cfg.seed = some n) :
    (mainRun fuel cfg date env s0 max_steps construct promptAnswer).outcome
      = Outcome.nameError ∧
    (mainRun fuel cfg date env s0 max_steps construct
      promptAnswer).constructCalled = false ∧
    (mainRun fuel cfg date env s0 max_steps construct
      promptAnswer).episodeLogs = [] ∧
    (mainRun fuel cfg date env s0 max_steps construct
      promptAnswer).finalEpisode = 0 ∧
    (mainRun fuel cfg date env s0 max_steps construct
      promptAnswer).finalizeCount = 0 := by
  have hs : cfg.seed.isSome = true := by rw [hseed]; rfl
  simp only [mainRun, hs, if_true]
  simp

/-- C8 witness: a seeded run fails before construction and episodes. -/
theorem seed_branch_name_error_witness :
    (mainRun 3 { baseCfg with seed := some 42 } "d" neverDoneEnv 0 2
      (Constructed.ok constAgent ()) "n").outcome = Outcome.nameError ∧
    (mainRun 3 { baseCfg with seed := some 42 } "d" neverDoneEnv 0 2
      (Constructed.ok constAgent ()) "n").constructCalled = false ∧
    (mainRun 3 { baseCfg with seed := some 42 } "d" neverDoneEnv 0 2
      (Constructed.ok constAgent ()) "n").episodeLogs = [] ∧
    (mainRun 3 { baseCfg with seed := some 42 } "d" neverDoneEnv 0 2
      (Constructed.ok constAgent ()) "n").finalEpisode = 0 ∧
    (mainRun 3 { baseCfg with seed := some 42 } "d" neverDoneEnv 0 2
      (Constructed.ok constAgent ()) "n").finalizeCount = 0 :=
  seed_branch_name_error 3 { baseCfg with seed := some 42 } "d" neverDoneEnv 0 2
    (Constructed.ok constAgent ()) "n" 42 rfl

/-- C9: for every episodes value strictly below -1 the loop guard is
false immediately: zero episodes run and control proceeds directly to
finalization; only the exact value -1 acts as the unbounded sentinel. -/
theorem negative_budget_zero_episodes (fuel : Nat) (cfg : Config)
    (date : String) (env : Env S Obs Act) (s0 : S) (max_steps : Nat)
    (methods : Agent A Obs Act) (a0 : A) (promptAnswer : String)
    (hseed : cfg.seed = none) (hneg : cfg.episodes < -1) :
    loopGuard cfg.episodes 0 = false ∧
    (mainRun fuel cfg date env s0 max_steps (Constructed.ok methods a0)
      promptAnswer).episodeLogs = [] ∧
    (mainRun fuel cfg date env s0 max_steps (Constructed.ok methods a0)
      promptAnswer).finalEpisode = 0 ∧
    (mainRun fuel cfg date env s0 max_steps (Constructed.ok methods a0)
      promptAnswer).outcome = Outcome.completed none ∧
    (mainRun fuel cfg date env s0 max_steps (Constructed.ok methods a0)
      promptAnswer).finalizeCount = 1 := by
  have hguard : loopGuard cfg.episodes 0 = false := by
    simp only [loopGuard, Bool.or_eq_false_iff, beq_eq_false_iff_ne,
      decide_eq_false_iff_not]
    constructor <;> omega
  have hs : cfg.seed.isSome = false := by rw [hseed]; rfl
  have hloop := episodeLoop_guardFalse env methods max_steps cfg.episodes fuel
    0 s0 a0 [] hguard
  refine ⟨hguard, ?_, ?_, ?_, ?_⟩ <;>
  · simp only [mainRun]
    rw [if_neg (by simp [hs])]
    try simp [hloop]

/-- C9 witness: a run with episode budget -2 runs zero episodes and still
finalizes. -/
theorem negative_budget_zero_episodes_witness :
    loopGuard ({ baseCfg with episodes := -2 } : Config).episodes 0 = false ∧
    (mainRun 4 { baseCfg with episodes := -2 } "d" neverDoneEnv 0 2
      (Constructed.ok constAgent ()) "n").episodeLogs = [] ∧
    (mainRun 4 { baseCfg with episodes := -2 } "d" neverDoneEnv 0 2
      (Constructed.ok constAgent ()) "n").finalEpisode = 0 ∧
    (mainRun 4 { baseCfg with episodes := -2 } "d" neverDoneEnv 0 2
      (Constructed.ok constAgent ()) "n").outcome = Outcome.completed none ∧
    (mainRun 4 { baseCfg with episodes := -2 } "d" neverDoneEnv 0 2
      (Constructed.ok constAgent ()) "n").finalizeCount = 1 :=
  negative_budget_zero_episodes 4 { baseCfg with episodes := -2 } "d"
    neverDoneEnv 0 2 constAgent () "n" rfl (by decide)

/-- C10: a run entered with save unspecified whose operator answers yes
performs exactly one filesystem write: the agent save to `final.pkl`
inside the results directory — and no directory creation, since the
`os.makedirs` of line 69 runs only when save was True at startup. -/
theorem prompted_save_without_mkdir (fuel : Nat) (cfg : Config)
    (date : String) (env : Env S Obs Act) (s0 : S) (max_steps : Nat)
    (methods : Agent A Obs Act) (a0 : A) (promptAnswer : String)
    (hseed : cfg.seed = none) (hsave : cfg.save = none)
    (hans : strLower promptAnswer = "y") :
    (mainRun fuel cfg date env s0 max_steps (Constructed.ok methods a0)
      promptAnswer).effects
      = [FsEffect.saveAgent (resultsPath cfg date ++ "/final.pkl")] := by
  have hs : cfg.seed.isSome = false := by rw [hseed]; rfl
  simp only [mainRun]
  rw [if_neg (by simp [hs])]
  simp [hsave, hans]

/-- C10 witness: save unspecified, answer "y": the only effect is the
agent save into the never-created results directory. -/
theorem prompted_save_without_mkdir_witness :
    (mainRun 0 { baseCfg with episodes := 0, save := none } "d" neverDoneEnv 0 2
      (Constructed.ok constAgent ()) "y").effects
      = [FsEffect.saveAgent
          (resultsPath { baseCfg with episodes := 0, save := none } "d"
            ++ "/final.pkl")] :=
  prompted_save_without_mkdir 0 { baseCfg with episodes := 0, save := none }
    "d" neverDoneEnv 0 2 constAgent () "y" rfl rfl (by decide)

end Grayskull
